import Mathlib

/-!
Verification development for the data-acquisition and local-cache layer of a
bike-share trip-data repository.  The Python modules
`batch_systems/src/feature_pipeline/data_sourcing.py` (namespace `batch`) and
`hourly_systems/src/feature_pipeline/data_sourcing.py` (namespace `hourly`)
are shallowly embedded below: pure string computations become Lean functions,
Python exceptions become `Except PyError`, the filesystem becomes an explicit
list of paths (with contents, for the hourly variant), and each HTTP response
is passed in explicitly as a `Response` value.  Filesystem writes are modelled
as always succeeding; path arithmetic follows pathlib (joining an absolute
second component discards the first).  `RAW_DATA_DIR` is modelled by the
literal segment string "data/raw"; the resolved absolute prefix of the real
constant is a fixed prefix that plays no role in any claim.
-/

/-- Python exception values that the embedded code can raise. -/
inductive PyError where
  | keyError : String → PyError
  | typeError : PyError
  | exception : String → PyError
deriving DecidableEq

/-- The raw-data root `RAW_DATA_DIR` from `src/setup/paths.py`, modelled as a
relative segment string. -/
def RAW_DATA_DIR : String := "data/raw"

/-- Python slicing `s[:-n]`, at character level. -/
def strDropRight (s : String) (n : Nat) : String :=
  String.mk (s.toList.take (s.toList.length - n))

/-- The leading-slash stripping `ZipFile.extract` applies to member names. -/
def strDropLeadingSlashes (s : String) : String :=
  String.mk (s.toList.dropWhile (fun c => c == '/'))

/-- pathlib joining: `a / b` keeps only `b` when `b` is absolute. -/
def pathJoin (a b : String) : String :=
  match b.toList with
  | '/' :: _ => b
  | _ => a ++ "/" ++ b

/-- Python `f"{month:02d}"` for the month values used here. -/
def month2 (m : Nat) : String :=
  if m < 10 then "0" ++ toString m else toString m

/-- Python `f"{self.year}{month:02d}"`. -/
def year_and_month (year month : Nat) : String :=
  toString year ++ month2 month

/-- Effective month set of `load_raw_data` (identical in both variants):
`end_month = dt.now().month if year == dt.now().year else 12` and
`months_to_query_for = range(1, end_month + 1) if months is None else months`.
The current clock is passed in as `currentYear`, `currentMonth`. -/
def months_to_query_for (year currentYear currentMonth : Nat)
    (months : Option (List Nat)) : List Nat :=
  match months with
  | some ms => ms
  | none => List.range' 1 (if year = currentYear then currentMonth else 12)

/-- An HTTP response: its status code, and `some members` when the body is a
valid zip archive whose member names map to the given file contents
(`none` models a body that is not a zip archive, e.g. an HTML error page). -/
structure Response where
  status : Nat
  body : Option (List (String × String))
deriving DecidableEq

/-- Core of `get_zipfile_name`: `re.search(r"[^/]+(.*)", url).group(1)`.
The regex matches at the first character that is not a slash, greedily
consumes that maximal slash-free run, and captures the rest of the string
(`.` also matches slashes); there is no match exactly when the string has no
slash-free character, in which case the code raises `Exception("Invalid URL")`. -/
def zipChars (cs : List Char) : Except PyError (List Char) :=
  let t := cs.dropWhile (fun c => c == '/')
  if t.isEmpty then .error (.exception "Invalid URL")
  else .ok (t.dropWhile (fun c => c != '/'))

/-- `DataDownloader.get_zipfile_name` (identical in both variants). -/
def get_zipfile_name (url : String) : Except PyError String :=
  match zipChars url.toList with
  | .ok l => .ok (String.mk l)
  | .error e => .error e

namespace batch

/-- The `service_names` table from the batch constructor. -/
def service_names : List (String × String) :=
  [("bay_area", "bay-wheels"), ("chicago", "divvybikes"),
   ("new_york", "citibikenyc"), ("columbus", "cogobikeshare"),
   ("washington_dc", "capitalbikeshare"), ("portland", "biketownpdx")]

/-- `DataDownloader.get_data_file_name` (batch variant): a dictionary lookup
whose missing key raises `KeyError`.  Note the dictionary has five entries
and no entry for "bay_area". -/
def get_data_file_name (city : String) (year month : Nat) :
    Except PyError String :=
  let ym := year_and_month year month
  match List.lookup city
      [("chicago", ym ++ "-divvy-tripdata"),
       ("new_york", ym ++ "-citibike-tripdata"),
       ("columbus", ym ++ "-cogo-tripdata"),
       ("washington_dc", ym ++ "-capitalbikeshare-tripdata"),
       ("portland", ym ++ ".csv")] with
  | some v => .ok v
  | none => .error (.keyError city)

/-- The `city_name_and_url_head` table of `get_url_for_city_data` (batch). -/
def city_name_and_url_head : List (String × String) :=
  [("chicago", "divvy-tripdata.s3.amazonaws.com/"),
   ("new_york", "s3.amazonaws.com/tripdata/"),
   ("columbus", "cogo-sys-data.s3.amazonaws.com/"),
   ("washington_dc", "s3.amazonaws.com/capitalbikeshare-data/"),
   ("portland", "s3.amazonaws.com/biketown-tripdata-public/")]

/-- `DataDownloader.get_url_for_city_data` (batch variant).  For Portland
after 2020 the code logs an error and falls off the function, returning
Python `None` (modelled `.ok none`); otherwise it returns
`"https://" + head + file_name`, raising `KeyError` on a missing table
entry. -/
def get_url_for_city_data (city : String) (year month : Nat) :
    Except PyError (Option String) :=
  if city = "portland" ∧ 2020 < year then .ok none
  else
    match get_data_file_name city year month with
    | .error e => .error e
    | .ok file_name =>
      match List.lookup city city_name_and_url_head with
      | some head => .ok (some ("https://" ++ head ++ file_name))
      | none => .error (.keyError city)

/-- `DataDownloader.data_file_exists`: probes
`RAW_DATA_DIR / city_name / file_name`. -/
def data_file_exists (files : List String) (city file_name : String) : Bool :=
  files.contains (pathJoin (pathJoin RAW_DATA_DIR city) file_name)

/-- Mutable world of the batch downloader: the set of filesystem paths that
exist, the number of HTTP GET requests issued so far, and the number of
attempts to open-and-extract a downloaded archive. -/
structure FetchState where
  files : List String
  requests : Nat
  extraction_attempts : Nat
deriving DecidableEq

/-- `DataDownloader.download_one_file_of_raw_data` (batch variant), with the
HTTP response passed in.  The code never inspects `resp.status`: it writes
the body to `RAW_DATA_DIR / zipfile_name`, opens it as a zip (raising
`BadZipFile` when it is not one), extracts the member
`file_name + ".csv"` into the directory `RAW_DATA_DIR / file_name` (Python
`ZipFile.extract` strips leading slashes from the member name before joining),
deletes the archive unless `keep_zipfile`, and finally reads
`RAW_DATA_DIR / f"{file_name}/{file_name}.csv"` as the returned dataframe
(dataframes are represented here by the path they were read from). -/
def download_one_file_of_raw_data (city : String) (year month : Nat)
    (keep_zipfile : Bool) (resp : Response) (s : FetchState) :
    FetchState × Except PyError String :=
  match get_url_for_city_data city year month with
  | .error e => (s, .error e)
  | .ok none => (s, .error .typeError)
  | .ok (some url) =>
    match get_zipfile_name url with
    | .error e => (s, .error e)
    | .ok zipfile_name =>
      let s := { s with requests := s.requests + 1 }
      let file_name := strDropRight zipfile_name 4
      let folder_path := pathJoin RAW_DATA_DIR file_name
      let zipfile_path := pathJoin RAW_DATA_DIR zipfile_name
      let s := { s with files := zipfile_path :: s.files }
      let s := { s with extraction_attempts := s.extraction_attempts + 1 }
      match resp.body with
      | none => (s, .error (.exception "BadZipFile"))
      | some members =>
        match List.lookup (file_name ++ ".csv") members with
        | none => (s, .error (.keyError (file_name ++ ".csv")))
        | some _ =>
          let target :=
            folder_path ++ "/" ++ strDropLeadingSlashes (file_name ++ ".csv")
          let s := { s with files := folder_path :: target :: s.files }
          let s :=
            if keep_zipfile then s
            else { s with files := s.files.erase zipfile_path }
          let read_path :=
            pathJoin RAW_DATA_DIR (file_name ++ "/" ++ file_name ++ ".csv")
          if s.files.contains read_path then (s, .ok read_path)
          else (s, .error (.exception "FileNotFoundError"))

/-- Loop body of `DataDownloader.load_raw_data` (batch variant), one clause
per iteration.  With `just_download` the loop runs to completion and the
function falls off, returning `None`; otherwise the code concatenates the
first month it manages to read and returns immediately from inside the loop.
Exceptions are not caught anywhere in this function and so abort the call. -/
def load_raw_data_go (city : String) (year : Nat) (just_download : Bool)
    (resp : Nat → Response) :
    List Nat → List String → FetchState →
    FetchState × Except PyError (Option (List String))
  | [], _, s => (s, .ok none)
  | m :: rest, data, s =>
    match get_data_file_name city year m with
    | .error e => (s, .error e)
    | .ok file_name =>
      if just_download then
        if data_file_exists s.files city file_name then
          load_raw_data_go city year just_download resp rest data s
        else
          match download_one_file_of_raw_data city year m false (resp m) s with
          | (s1, .error e) => (s1, .error e)
          | (s1, .ok _) => load_raw_data_go city year just_download resp rest data s1
      else
        if data_file_exists s.files city file_name then
          let read_path :=
            pathJoin RAW_DATA_DIR (file_name ++ "/" ++ file_name ++ ".csv")
          if s.files.contains read_path then (s, .ok (some (data ++ [read_path])))
          else (s, .error (.exception "FileNotFoundError"))
        else
          match download_one_file_of_raw_data city year m false (resp m) s with
          | (s1, .error e) => (s1, .error e)
          | (s1, .ok df) => (s1, .ok (some (data ++ [df])))

/-- `DataDownloader.load_raw_data` (batch variant). -/
def load_raw_data (city : String) (year : Nat) (just_download : Bool)
    (months : Option (List Nat)) (currentYear currentMonth : Nat)
    (resp : Nat → Response) (s : FetchState) :
    FetchState × Except PyError (Option (List String)) :=
  load_raw_data_go city year just_download resp
    (months_to_query_for year currentYear currentMonth months) [] s

end batch

namespace hourly

/-- The `service_names` table from the hourly constructor (its keys use
spaces, not underscores). -/
def service_names : List (String × String) :=
  [("bay area", "bay-wheels"), ("chicago", "divvybikes"),
   ("new york", "citibikenyc"), ("columbus", "cogobikeshare"),
   ("washington dc", "capitalbikeshare"), ("portland", "biketownpdx")]

/-- `DataDownloader.get_data_file_name` (hourly variant): an assert on key
membership (failing with `AssertionError`) followed by the lookup. -/
def get_data_file_name (city : String) (year month : Nat) :
    Except PyError String :=
  let ym := year_and_month year month
  match List.lookup city
      [("chicago", ym ++ "-divvy-tripdata"),
       ("new york", ym ++ "-citibike-tripdata"),
       ("columbus", ym ++ "-cogo-tripdata"),
       ("washington dc", ym ++ "-capitalbikeshare-tripdata"),
       ("portland", ym ++ ".csv")] with
  | some v => .ok v
  | none => .error (.exception "AssertionError")

/-- The `city_name_and_url_head` table (hourly variant). -/
def city_name_and_url_head : List (String × String) :=
  [("chicago", "divvy-tripdata.s3.amazonaws.com/"),
   ("new york", "s3.amazonaws.com/tripdata/"),
   ("columbus", "cogo-sys-data.s3.amazonaws.com/"),
   ("washington dc", "s3.amazonaws.com/capitalbikeshare-data/"),
   ("portland", "s3.amazonaws.com/biketown-tripdata-public/")]

/-- `DataDownloader.get_url_for_city_data` (hourly variant): like the batch
one but without the leading `"https://"`. -/
def get_url_for_city_data (city : String) (year month : Nat) :
    Except PyError (Option String) :=
  if city = "portland" ∧ 2020 < year then .ok none
  else
    match get_data_file_name city year month with
    | .error e => .error e
    | .ok file_name =>
      match List.lookup city city_name_and_url_head with
      | some head => .ok (some (head ++ file_name))
      | none => .error (.keyError city)

/-- Mutable world of the hourly downloader: filesystem paths with their
contents, plus request and extraction counters. -/
structure HState where
  files : List (String × String)
  requests : Nat
  extraction_attempts : Nat
deriving DecidableEq

/-- `download_one_file_of_raw_data` composed with `download_and_extract_zipfile`
and `write_and_extract_zipfile` (hourly variant): resolve the URL, issue one
GET, write the body to `RAW_DATA_DIR / zipfile_name`, extract the member
`file_name + ".csv"` into `RAW_DATA_DIR / file_name` (leading slashes of the
member are stripped by `ZipFile.extract` before joining), then delete the
archive (`keep_zipfile` defaults to false and no caller overrides it). -/
def download_one_file_of_raw_data (city : String) (year month : Nat)
    (resp : Response) (s : HState) : HState × Except PyError Unit :=
  match get_url_for_city_data city year month with
  | .error e => (s, .error e)
  | .ok none => (s, .error .typeError)
  | .ok (some url) =>
    match get_zipfile_name url with
    | .error e => (s, .error e)
    | .ok zipfile_name =>
      let s := { s with requests := s.requests + 1 }
      let file_name := strDropRight zipfile_name 4
      let folder_path := pathJoin RAW_DATA_DIR file_name
      let zipfile_path := pathJoin RAW_DATA_DIR zipfile_name
      let s := { s with files := (zipfile_path, "zip-archive-bytes") :: s.files }
      let s := { s with extraction_attempts := s.extraction_attempts + 1 }
      match resp.body with
      | none => (s, .error (.exception "BadZipFile"))
      | some members =>
        match List.lookup (file_name ++ ".csv") members with
        | none => (s, .error (.keyError (file_name ++ ".csv")))
        | some content =>
          let target :=
            folder_path ++ "/" ++ strDropLeadingSlashes (file_name ++ ".csv")
          let s := { s with
            files := (folder_path, "directory") :: (target, content) :: s.files }
          let s := { s with
            files := s.files.eraseP (fun kv => kv.1 == zipfile_path) }
          (s, .ok ())

/-- `DataDownloader.check_for_file_or_download` (hourly variant): does
nothing when `month` is `None`; otherwise probes `RAW_DATA_DIR / file_name`
and, on a miss, runs the download inside a `try` whose `except` merely logs,
so this function never raises and only its filesystem effects remain. -/
def check_for_file_or_download (city : String) (year : Nat)
    (file_name : String) (month : Option Nat) (resp : Nat → Response)
    (s : HState) : HState :=
  match month with
  | none => s
  | some m =>
    if (List.lookup (pathJoin RAW_DATA_DIR file_name) s.files).isSome then s
    else (download_one_file_of_raw_data city year m (resp m) s).1

/-- `DataDownloader.get_dataframe_from_folder`: reads
`RAW_DATA_DIR / f"{file_name}/{file_name}.csv"`; dataframes are represented
by the file contents found there. -/
def get_dataframe_from_folder (files : List (String × String))
    (file_name : String) : Except PyError String :=
  match List.lookup
      (pathJoin RAW_DATA_DIR (file_name ++ "/" ++ file_name ++ ".csv"))
      files with
  | some content => .ok content
  | none => .error (.exception "FileNotFoundError")

/-- One iteration of the hourly loader loop: the `try` body runs
`check_for_file_or_download` then yields the dataframe read; any exception
(only the read can raise here) is caught by the loop's `except`, which logs
and yields nothing for this month. -/
def load_month (city : String) (year : Nat) (file_name : String)
    (resp : Nat → Response) (m : Nat) (s : HState) : HState × Option String :=
  let s1 := check_for_file_or_download city year file_name (some m) resp s
  match get_dataframe_from_folder s1.files file_name with
  | .ok d => (s1, some d)
  | .error _ => (s1, none)

/-- The hourly loader loop over the effective month list, accumulating the
yielded dataframes in order. -/
def load_raw_data_go (city : String) (year : Nat) (file_name : String)
    (resp : Nat → Response) : List Nat → HState → HState × List String
  | [], s => (s, [])
  | m :: rest, s =>
    let r1 := load_month city year file_name resp m s
    let r2 := load_raw_data_go city year file_name resp rest r1.1
    (r2.1, match r1.2 with
           | some d => d :: r2.2
           | none => r2.2)

/-- `DataDownloader.load_raw_data` (hourly variant, a generator; its yielded
sequence is materialized as the returned list). -/
def load_raw_data (city : String) (year : Nat) (months : Option (List Nat))
    (file_name : String) (currentYear currentMonth : Nat)
    (resp : Nat → Response) (s : HState) : HState × List String :=
  load_raw_data_go city year file_name resp
    (months_to_query_for year currentYear currentMonth months) s

end hourly

/-! Concrete scenarios used by individual claims. -/

/-- A successful HTTP response whose body is a valid zip archive holding the
one member that the batch extraction step will ask for (the zip-derived base
name of the Washington DC January 2024 archive plus ".csv"). -/
def c1_resp : Response :=
  ⟨200,
   some [("//s3.amazonaws.com/capitalbikeshare-data/202401-capitalbikeshare-trip.csv",
          "ride-rows")]⟩

/-- First download-only loader run for Washington DC, January 2024, starting
from an empty raw-data directory. -/
def c1_run1 : batch.FetchState × Except PyError (Option (List String)) :=
  batch.load_raw_data "washington_dc" 2024 true (some [1]) 2024 12
    (fun _ => c1_resp) ⟨[], 0, 0⟩

/-- Second, identical loader run, starting from the filesystem the first run
left behind. -/
def c1_run2 : batch.FetchState × Except PyError (Option (List String)) :=
  batch.load_raw_data "washington_dc" 2024 true (some [1]) 2024 12
    (fun _ => c1_resp) c1_run1.1

/-- A filesystem that already holds the hourly cache probe target for the
caller-supplied file name "f" together with its tabular file. -/
def c10_files : List (String × String) :=
  [("data/raw/f", "directory"), ("data/raw/f/f.csv", "ride-rows")]

/-! Helper lemmas. -/

theorem dropWhile_beq_slash_cons (a : Char) (l : List Char) (ha : a ≠ '/') :
    (a :: l).dropWhile (fun c => c == '/') = a :: l := by
  have h : (a == '/') = false := by simpa using ha
  simp [List.dropWhile_cons, h]

theorem dropWhile_ne_slash_append (scheme rest : List Char)
    (h : ∀ c ∈ scheme, c ≠ '/') :
    (scheme ++ '/' :: rest).dropWhile (fun c => c != '/') = '/' :: rest := by
  induction scheme with
  | nil => simp [List.dropWhile_cons]
  | cons a tl ih =>
    have ha : ((a != '/') = true) := by simpa using h a (List.mem_cons_self a tl)
    rw [List.cons_append, List.dropWhile_cons, ha]
    simp only [if_true]
    exact ih fun c hc => h c (List.mem_cons_of_mem a hc)

theorem zipChars_scheme_kept (scheme rest : List Char) (h1 : scheme ≠ [])
    (h2 : ∀ c ∈ scheme, c ≠ '/') :
    zipChars (scheme ++ '/' :: rest) = .ok ('/' :: rest) := by
  obtain ⟨a, tl, rfl⟩ := List.exists_cons_of_ne_nil h1
  have ha : a ≠ '/' := h2 a (List.mem_cons_self a tl)
  have hb : (a == '/') = false := by simpa using ha
  have hne : (a != '/') = true := by simpa using ha
  have htl := dropWhile_ne_slash_append tl rest
    (fun c hc => h2 c (List.mem_cons_of_mem a hc))
  simp [zipChars, List.cons_append, List.dropWhile_cons, hb, hne, htl]

theorem zipChars_error_iff (cs : List Char) :
    zipChars cs = .error (.exception "Invalid URL") ↔ ∀ c ∈ cs, c = '/' := by
  constructor
  · intro herr c hc
    by_contra hne
    have hnonempty : cs.dropWhile (fun c => c == '/') ≠ [] := by
      intro hnil
      have := List.dropWhile_eq_nil_iff.mp hnil c hc
      simp at this
      exact hne this
    have hfalse : ¬ ((cs.dropWhile (fun c => c == '/')).isEmpty = true) := by
      simpa [List.isEmpty_iff] using hnonempty
    simp only [zipChars] at herr
    rw [if_neg hfalse] at herr
    exact absurd herr (by simp)
  · intro hall
    have hnil : cs.dropWhile (fun c => c == '/') = [] :=
      List.dropWhile_eq_nil_iff.mpr fun c hc => by simp [hall c hc]
    simp [zipChars, hnil]

/-! Claim theorems. -/

/-- C1: the idempotent-fetch claim fails on the code.  In the concrete
Washington DC January 2024 scenario (empty raw-data directory, well-formed
archive served), the first download-only loader run issues one GET, but the
path probed by `data_file_exists` (`data/raw/washington_dc/<data-file-name>`)
is not among the paths the download created (all of which derive from the
URL and lack the city segment), so the second run misses the cache and
issues a second GET instead of returning without a network fetch. -/
theorem C1_second_run_refetches :
    c1_run1.1.requests = 1
    ∧ batch.data_file_exists c1_run1.1.files "washington_dc"
        "202401-capitalbikeshare-tripdata" = false
    ∧ c1_run2.1.requests = 2 := by
  refine ⟨?_, ?_, ?_⟩ <;> rfl

/-- C2: the partial-failure-isolation claim fails on the batch loader.  With
months [1,2,3] requested for Washington DC 2024 and every fetch answered by
a non-zip 404 body, the very first month's failure propagates out of
`load_raw_data` (there is no try/except in the batch variant), so the call
raises instead of logging and continuing: only one request is ever made and
months 2 and 3 are never processed. -/
theorem C2_batch_loader_raises_and_stops :
    (batch.load_raw_data "washington_dc" 2024 false (some [1, 2, 3]) 2024 12
        (fun _ => ⟨404, none⟩) ⟨[], 0, 0⟩).2
      = .error (.exception "BadZipFile")
    ∧ (batch.load_raw_data "washington_dc" 2024 false (some [1, 2, 3]) 2024 12
        (fun _ => ⟨404, none⟩) ⟨[], 0, 0⟩).1.requests = 1 := by
  exact ⟨rfl, rfl⟩

/-- C3: the URL-construction claim fails on the code.  For
city="washington_dc", year=2024, month=1 the code returns the URL without
the ".zip" suffix that the spec (and the code's own extension-stripping
extraction logic) expects. -/
theorem C3_url_lacks_zip_suffix :
    batch.get_url_for_city_data "washington_dc" 2024 1
      = .ok (some
          "https://s3.amazonaws.com/capitalbikeshare-data/202401-capitalbikeshare-tripdata")
    ∧ ("https://s3.amazonaws.com/capitalbikeshare-data/202401-capitalbikeshare-tripdata"
        : String)
      ≠ "https://s3.amazonaws.com/capitalbikeshare-data/202401-capitalbikeshare-tripdata.zip" := by
  exact ⟨rfl, by decide⟩

/-- C7: the fetch-error claim fails on the code.  On a 404 response whose
body is not a zip archive, `download_one_file_of_raw_data` does not report
any fetch error: it persists the body at the archive path (the path is in
the resulting filesystem), attempts extraction (the counter is 1), and the
resulting exception is `BadZipFile` from the extraction stage, not a
status-based error. -/
theorem C7_status_ignored_body_persisted :
    (batch.download_one_file_of_raw_data "washington_dc" 2024 1 false
        ⟨404, none⟩ ⟨[], 0, 0⟩).2 = .error (.exception "BadZipFile")
    ∧ (batch.download_one_file_of_raw_data "washington_dc" 2024 1 false
        ⟨404, none⟩ ⟨[], 0, 0⟩).1.files
      = ["//s3.amazonaws.com/capitalbikeshare-data/202401-capitalbikeshare-tripdata"]
    ∧ (batch.download_one_file_of_raw_data "washington_dc" 2024 1 false
        ⟨404, none⟩ ⟨[], 0, 0⟩).1.extraction_attempts = 1 := by
  exact ⟨rfl, rfl, rfl⟩

/-- C9: deterministic naming holds: chicago and new_york for 2024-03 yield
exactly the claimed file names, and for every month 1..12 the month part of
the name is zero-padded to exactly two digits. -/
theorem C9_deterministic_naming :
    batch.get_data_file_name "chicago" 2024 3 = .ok "202403-divvy-tripdata"
    ∧ batch.get_data_file_name "new_york" 2024 3 = .ok "202403-citibike-tripdata"
    ∧ ((List.range' 1 12).all fun m => (month2 m).length == 2) = true := by
  exact ⟨rfl, rfl, rfl⟩

/-- C4 counterexample: for portland, year 2021, the resolver does not raise
any error; it returns Python `None` (the logged-error branch falls off the
function), so the claim that it raises a `DataUnavailableError` is false. -/
theorem C4_portland_2021_returns_none :
    batch.get_url_for_city_data "portland" 2021 1 = .ok none := by
  exact rfl

/-- C4 (amended): for city="portland" and every year strictly greater than
2020, `get_url_for_city_data` logs an error and returns no URL (Python
`None`), without raising; for year 2020 and every month, the file name is a
string ending in ".csv" and the URL resolves successfully to the Portland
file URL built from it. -/
theorem C4_portland_cutoff_amended :
    (∀ year month : Nat, 2020 < year →
        batch.get_url_for_city_data "portland" year month = .ok none)
    ∧ (∀ month : Nat, batch.get_data_file_name "portland" 2020 month
        = .ok (year_and_month 2020 month ++ ".csv"))
    ∧ (∀ month : Nat, batch.get_url_for_city_data "portland" 2020 month
        = .ok (some ("https://s3.amazonaws.com/biketown-tripdata-public/"
            ++ (year_and_month 2020 month ++ ".csv")))) := by
  refine ⟨?_, ?_, ?_⟩
  · intro year month h
    unfold batch.get_url_for_city_data
    rw [if_pos ⟨rfl, h⟩]
  · intro month
    rfl
  · intro month
    rfl

/-- C4 witness: the amended theorem applied at year 2021, month 5 and at
month 5 of year 2020. -/
theorem C4_portland_cutoff_amended_witness :
    batch.get_url_for_city_data "portland" 2021 5 = .ok none
    ∧ batch.get_data_file_name "portland" 2020 5
        = .ok (year_and_month 2020 5 ++ ".csv") :=
  ⟨C4_portland_cutoff_amended.1 2021 5 (by decide),
   C4_portland_cutoff_amended.2.1 5⟩

/-- C5 counterexample: "bay_area" passes the constructor membership check
(it has a service-slug entry) yet has no entry in the file-name table, so
`get_data_file_name` raises `KeyError` for it; the claimed closed-set table
invariant is false for the sixth city. -/
theorem C5_bay_area_missing_from_tables :
    List.lookup "bay_area" batch.service_names = some "bay-wheels"
    ∧ batch.get_data_file_name "bay_area" 2024 1 = .error (.keyError "bay_area") := by
  exact ⟨rfl, rfl⟩

/-- C5 (amended): the service-slug table covers all six cities, but the
file-name and URL tables cover only the other five; for each of those five
cities and every period, both `get_data_file_name` and
`get_url_for_city_data` return without raising. -/
theorem C5_tables_cover_other_five :
    (∀ c ∈ ["bay_area", "chicago", "new_york", "columbus", "washington_dc",
            "portland"],
        (List.lookup c batch.service_names).isSome = true)
    ∧ (∀ c ∈ ["chicago", "new_york", "columbus", "washington_dc", "portland"],
        ∀ year month : Nat,
          (∃ s, batch.get_data_file_name c year month = .ok s)
          ∧ (∃ r, batch.get_url_for_city_data c year month = .ok r)) := by
  constructor
  · decide
  · intro c hc year month
    fin_cases hc
    · exact ⟨⟨_, rfl⟩, ⟨_, rfl⟩⟩
    · exact ⟨⟨_, rfl⟩, ⟨_, rfl⟩⟩
    · exact ⟨⟨_, rfl⟩, ⟨_, rfl⟩⟩
    · exact ⟨⟨_, rfl⟩, ⟨_, rfl⟩⟩
    · refine ⟨⟨_, rfl⟩, ?_⟩
      by_cases hy : 2020 < year
      · refine ⟨none, ?_⟩
        unfold batch.get_url_for_city_data
        rw [if_pos ⟨rfl, hy⟩]
      · refine ⟨some ("https://s3.amazonaws.com/biketown-tripdata-public/"
            ++ (year_and_month year month ++ ".csv")), ?_⟩
        unfold batch.get_url_for_city_data
        rw [if_neg fun hcond => hy hcond.2]
        rfl

/-- C5 witness: the amended theorem applied at city "chicago", period
2024-07. -/
theorem C5_tables_cover_other_five_witness :
    (List.lookup "chicago" batch.service_names).isSome = true
    ∧ ∃ s, batch.get_data_file_name "chicago" 2024 7 = .ok s :=
  ⟨C5_tables_cover_other_five.1 "chicago" (by decide),
   (C5_tables_cover_other_five.2 "chicago" (by decide) 2024 7).1⟩

/-- C6 counterexample: on the claimed example URL the function keeps the
"//host" part, returning "//s3.amazonaws.com/tripdata/..." instead of the
path-only remainder "/tripdata/...", so the claim that exactly the leading
scheme-and-host segment is stripped is false. -/
theorem C6_scheme_colon_only_stripped :
    get_zipfile_name "https://s3.amazonaws.com/tripdata/202401-citibike-tripdata.zip"
      = .ok "//s3.amazonaws.com/tripdata/202401-citibike-tripdata.zip"
    ∧ ("//s3.amazonaws.com/tripdata/202401-citibike-tripdata.zip" : String)
      ≠ "/tripdata/202401-citibike-tripdata.zip" := by
  exact ⟨rfl, by decide⟩

/-- C6 (amended): the regex strips only the leading maximal run of
characters that are not slashes (after skipping leading slashes): for any
URL of the shape `scheme ++ "/" ++ rest` with a nonempty slash-free scheme
part, the result keeps everything from the first slash on (for an
`https://host/path` URL this is `"//host/path"`, not the path after the
host); and it fails with the invalid-URL error exactly when the URL
contains no slash-free character at all — a bare host with no path yields
the empty string rather than an error. -/
theorem C6_zipfile_name_amended :
    (∀ scheme rest : List Char, scheme ≠ [] → (∀ c ∈ scheme, c ≠ '/') →
        zipChars (scheme ++ '/' :: rest) = .ok ('/' :: rest))
    ∧ (∀ cs : List Char,
        zipChars cs = .error (.exception "Invalid URL") ↔ ∀ c ∈ cs, c = '/')
    ∧ get_zipfile_name "s3.amazonaws.com" = .ok "" := by
  exact ⟨zipChars_scheme_kept, zipChars_error_iff, rfl⟩

/-- C6 witness: the amended theorem applied to the scheme part "https:" and
the remainder "/s3.amazonaws.com/x.zip", and to the all-slash string "//". -/
theorem C6_zipfile_name_amended_witness :
    zipChars ("https:".toList ++ '/' :: "/s3.amazonaws.com/x.zip".toList)
      = .ok ('/' :: "/s3.amazonaws.com/x.zip".toList)
    ∧ zipChars "//".toList = .error (.exception "Invalid URL") :=
  ⟨C6_zipfile_name_amended.1 "https:".toList "/s3.amazonaws.com/x.zip".toList
      (by decide) (by decide),
   (C6_zipfile_name_amended.2.1 "//".toList).mpr (by decide)⟩

/-- C8: with no months specified, the effective month list contains exactly
the months 1..currentMonth when the requested year is the current year and
exactly 1..12 otherwise, it is strictly ascending, and in the current year
it never contains a month after the current one. -/
theorem C8_effective_month_set (year cy cm : Nat) :
    (∀ m, m ∈ months_to_query_for year cy cm none ↔
        1 ≤ m ∧ m ≤ (if year = cy then cm else 12))
    ∧ (months_to_query_for year cy cm none).Pairwise (· < ·)
    ∧ (year = cy → ∀ m ∈ months_to_query_for year cy cm none, m ≤ cm) := by
  by_cases hyc : year = cy
  · refine ⟨?_, ?_, ?_⟩
    · intro m
      simp only [months_to_query_for, hyc, if_true, List.mem_range'_1]
      omega
    · simp only [months_to_query_for, hyc, if_true]
      exact List.pairwise_lt_range' 1 cm
    · intro _ m hm
      have := List.mem_range'_1.mp (by simpa [months_to_query_for, hyc] using hm)
      omega
  · refine ⟨?_, ?_, fun h => absurd h hyc⟩
    · intro m
      simp only [months_to_query_for, hyc, if_false, List.mem_range'_1]
      omega
    · simp only [months_to_query_for, hyc, if_false]
      exact List.pairwise_lt_range' 1 12

/-- C8 witness: in October of the current year 2026, month 5 is in the
effective set and is bounded by the current month. -/
theorem C8_effective_month_set_witness :
    5 ∈ months_to_query_for 2026 2026 10 none ∧ 5 ≤ 10 := by
  have h := C8_effective_month_set 2026 2026 10
  have hmem : 5 ∈ months_to_query_for 2026 2026 10 none :=
    (h.1 5).mpr (by decide)
  exact ⟨hmem, h.2.2 rfl 5 hmem⟩

/-- C10: in the hourly loader the read path depends only on the single
caller-supplied file name, never on the month being processed: when the
cache probe target for that file name is already present (so the filesystem
is unchanged between reads), every batch the call yields is the very
dataframe read from `RAW_DATA_DIR/file_name/file_name.csv` in the initial
filesystem, and any two yielded batches are equal. -/
theorem C10_month_independent_read (city : String) (year cy cm : Nat)
    (file_name : String) (months : Option (List Nat)) (resp : Nat → Response)
    (s : hourly.HState)
    (h : (List.lookup (pathJoin RAW_DATA_DIR file_name) s.files).isSome = true) :
    (∀ d ∈ (hourly.load_raw_data city year months file_name cy cm resp s).2,
        hourly.get_dataframe_from_folder s.files file_name = .ok d)
    ∧ ∀ d1 ∈ (hourly.load_raw_data city year months file_name cy cm resp s).2,
      ∀ d2 ∈ (hourly.load_raw_data city year months file_name cy cm resp s).2,
        d1 = d2 := by
  have hcheck : ∀ m, hourly.check_for_file_or_download city year file_name
      (some m) resp s = s := by
    intro m
    simp [hourly.check_for_file_or_download, h]
  have hlm : ∀ m, hourly.load_month city year file_name resp m s =
      (s, match hourly.get_dataframe_from_folder s.files file_name with
          | .ok d => some d
          | .error _ => none) := by
    intro m
    simp only [hourly.load_month, hcheck]
    cases hourly.get_dataframe_from_folder s.files file_name <;> rfl
  have hgo : ∀ ms : List Nat,
      (hourly.load_raw_data_go city year file_name resp ms s).1 = s
      ∧ ∀ d ∈ (hourly.load_raw_data_go city year file_name resp ms s).2,
          hourly.get_dataframe_from_folder s.files file_name = .ok d := by
    intro ms
    induction ms with
    | nil => exact ⟨rfl, by intro d hd; simp [hourly.load_raw_data_go] at hd⟩
    | cons m rest ih =>
      cases hdf : hourly.get_dataframe_from_folder s.files file_name with
      | ok d0 =>
        constructor
        · simp only [hourly.load_raw_data_go, hlm, hdf]
          exact ih.1
        · intro d hd
          simp only [hourly.load_raw_data_go, hlm, hdf, List.mem_cons] at hd
          rcases hd with rfl | hd
          · rfl
          · exact hdf.symm.trans (ih.2 d hd)
      | error e =>
        constructor
        · simp only [hourly.load_raw_data_go, hlm, hdf]
          exact ih.1
        · intro d hd
          simp only [hourly.load_raw_data_go, hlm, hdf] at hd
          exact hdf.symm.trans (ih.2 d hd)
  have main := hgo (months_to_query_for year cy cm months)
  refine ⟨fun d hd => main.2 d hd, fun d1 h1 d2 h2 => ?_⟩
  have e1 := main.2 d1 h1
  have e2 := main.2 d2 h2
  exact Except.ok.inj (e1.symm.trans e2)

/-- C10 witness: with the cache target for file name "f" and its tabular
file already on disk, a two-month run yields exactly the stored rows. -/
theorem C10_month_independent_read_witness :
    hourly.get_dataframe_from_folder c10_files "f" = .ok "ride-rows"
    ∧ "ride-rows" ∈ (hourly.load_raw_data "new york" 2024 (some [1, 2]) "f"
        2024 12 (fun _ => ⟨200, none⟩) ⟨c10_files, 0, 0⟩).2 := by
  have h := (C10_month_independent_read "new york" 2024 2024 12 "f"
      (some [1, 2]) (fun _ => ⟨200, none⟩) ⟨c10_files, 0, 0⟩ (by decide)).1
  exact ⟨h "ride-rows" (by decide), by decide⟩
